import Mathlib

/-!
# Verification of the document-processing service

A shallow embedding of the durable job pipeline of the repository
`document-processing-service`: the Job Submission Gateway (`upload_pdf` in
`backend/app/main.py`), the Worker Loop (`PDFConsumer._process_message` in
`backend/app/consumers/pdf_consumer.py`), the Redis-backed Durable Stream,
Result Store and helpers (`backend/app/services/redis_service.py`), and the
data model (`backend/app/models/pdf_models.py`).

Python strings are modelled as `String` where only identity matters and as
`List Nat` of Unicode code points (surrogates included) where encoding
behaviour matters; byte strings are `List Nat` with each element `< 256`.
Python truthiness of an optional string (`if not x`) is modelled by
`pyTruthy`.  Fallible operations return `Except`/`Option`.  The Redis broker
(an external dependency) is modelled by `StreamState` following the
consumer-group contract of the spec's Durable Stream section: `XADD` appends
with a strictly increasing id, `XREADGROUP` with the `>` cursor delivers only
entries beyond the group's last-delivered id, `XACK` removes an entry from
the pending list; the worker only ever reads with `>` and `count=1`.
-/

namespace DocService

/-- `ProcessingStatus` from `pdf_models.py`. -/
inductive ProcessingStatus where
  | pending
  | processing
  | completed
  | failed
deriving DecidableEq, Repr

/-- `ParserType` from `pdf_models.py`: the closed parser enumeration. -/
inductive ParserType where
  | pypdf
  | gemini_flash
  | mistral
deriving DecidableEq, Repr

/-- The string value of each `ParserType` member (the Python str-enum value). -/
def ParserType.value : ParserType → String
  | .pypdf => "pypdf"
  | .gemini_flash => "gemini_flash"
  | .mistral => "mistral"

/-- `ParserType(s)` in Python: look a string up in the closed enumeration,
`none` models the `ValueError` raised for an unrecognized value. -/
def ParserType.ofString : String → Option ParserType
  | "pypdf" => some .pypdf
  | "gemini_flash" => some .gemini_flash
  | "mistral" => some .mistral
  | _ => none

/-- Python truthiness of an optional string: `None` and `""` are falsy. -/
def pyTruthy : Option String → Bool
  | none => false
  | some s => !(s == "")

/-- Python `s.endswith(post)`: suffix comparison on the character
sequence. -/
def pyEndsWith (s post : String) : Bool :=
  post.data.isSuffixOf s.data

/-! ## Hex encoding and decoding

`bytes.hex()` (gateway, `main.py` line 86) and `bytes.fromhex`
(worker, `pdf_consumer.py` line 67). Bytes are `Nat` values `< 256`. -/

/-- Lowercase hex digit for a nibble, as produced by Python `bytes.hex()`. -/
def hexDigit (n : Nat) : Char :=
  if n < 10 then Char.ofNat (48 + n) else Char.ofNat (87 + n)

/-- One byte as two lowercase hex digits. -/
def byteToHex (b : Nat) : List Char :=
  [hexDigit (b / 16), hexDigit (b % 16)]

/-- `content.hex()`: the whole byte string as lowercase hex. -/
def bytesHex (bs : List Nat) : String :=
  String.mk (bs.flatMap byteToHex)

/-- Value of a hex digit character; `bytes.fromhex` accepts both cases. -/
def hexDigitVal (c : Char) : Option Nat :=
  if 48 ≤ c.toNat ∧ c.toNat ≤ 57 then some (c.toNat - 48)
  else if 97 ≤ c.toNat ∧ c.toNat ≤ 102 then some (c.toNat - 87)
  else if 65 ≤ c.toNat ∧ c.toNat ≤ 70 then some (c.toNat - 55)
  else none

/-- Decode a hex character list two digits at a time; `none` models the
`ValueError` that `bytes.fromhex` raises on odd length or a non-hex digit. -/
def bytesFromHexChars : List Char → Option (List Nat)
  | [] => some []
  | [_] => none
  | c1 :: c2 :: rest =>
    match hexDigitVal c1, hexDigitVal c2, bytesFromHexChars rest with
    | some h, some l, some tail => some ((16 * h + l) :: tail)
    | _, _, _ => none

/-- `bytes.fromhex(s)`. -/
def bytes_fromhex (s : String) : Option (List Nat) :=
  bytesFromHexChars s.data

/-- The lowercase hex alphabet emitted by `bytes.hex()`: the sixteen digit
characters, in value order. -/
def lowercaseHexChars : List Char :=
  (List.range 16).map hexDigit

theorem hexDigitVal_hexDigit (n : Nat) (h : n < 16) :
    hexDigitVal (hexDigit n) = some n := by
  interval_cases n <;> rfl

theorem hexDigit_mem_lowercase (n : Nat) (h : n < 16) :
    hexDigit n ∈ lowercaseHexChars :=
  List.mem_map.2 ⟨n, List.mem_range.2 h, rfl⟩

theorem bytesFromHexChars_flatMap (bs : List Nat) (h : ∀ b ∈ bs, b < 256) :
    bytesFromHexChars (bs.flatMap byteToHex) = some bs := by
  induction bs with
  | nil => rfl
  | cons b rest ih =>
    have hb : b < 256 := h b (List.mem_cons_self b rest)
    have hrest : ∀ x ∈ rest, x < 256 := fun x hx => h x (List.mem_cons_of_mem b hx)
    have hdiv : b / 16 < 16 := Nat.div_lt_of_lt_mul (by omega)
    have hmod : b % 16 < 16 := Nat.mod_lt _ (by omega)
    have hrecomb : 16 * (b / 16) + b % 16 = b := by omega
    simp only [List.flatMap, List.map_cons, List.flatten_cons, byteToHex,
      List.cons_append, List.nil_append, bytesFromHexChars,
      hexDigitVal_hexDigit _ hdiv, hexDigitVal_hexDigit _ hmod]
    simp only [List.flatMap] at ih
    simp only [List.append_eq, List.nil_append]
    rw [ih hrest]
    show some ((16 * (b / 16) + b % 16) :: rest) = some (b :: rest)
    rw [hrecomb]

/-! ## Stream wire shape

Each stream entry carries two text fields, `processing_id` and `data`
(`redis_service.py` lines 62–65); `data` is a JSON string. -/

/-- The payload dict built by the gateway (`main.py` lines 84–89) and read by
the worker (`data.get("filename")`, `data.get("content")`,
`data.get("parser", "pypdf")`).  An absent key is `none`; values are modelled
as strings, the only case the pipeline produces. -/
structure PayloadDict where
  filename : Option String
  content : Option String
  processing_id : Option String
  parser : Option String
deriving DecidableEq, Repr

/-- Outcome of decoding a non-empty `data` field: a dict with the keys the
worker reads, or anything that makes `json.loads`/dict access raise
(unparseable JSON, or a non-dict JSON value on which `.get` fails). -/
inductive StreamData where
  | dict (d : PayloadDict)
  | invalid
deriving DecidableEq, Repr

/-- The two text fields of a stream entry.  For `data`, `none` stands for a
field that is absent or the empty string: both are falsy at
`pdf_consumer.py` line 49, so an empty `data` string is dropped before any
JSON parse and its parse outcome never matters. -/
structure StreamFields where
  processing_id : Option String
  data : Option StreamData
deriving DecidableEq, Repr

/-! ## Processing Strategy result model (`pdf_models.py`) -/

/-- Text as a list of Unicode code points.  A Python `str` may hold lone
surrogates (U+D800–U+DFFF), which cannot be encoded to UTF-8. -/
abbrev PyText := List Nat

/-- `PDFTextExtraction` from `pdf_models.py`.  `metadata` is an opaque
string map; numeric fields irrelevant to the pipeline are `Nat`. -/
structure PDFTextExtraction where
  text : PyText
  markdown : PyText
  page_count : Nat
  metadata : List (String × String)
  parser_used : ParserType
deriving DecidableEq, Repr

/-- `GeminiAnalysis` from `pdf_models.py`. -/
structure GeminiAnalysis where
  summary : PyText
  key_points : List PyText
  sentiment : Option PyText
  topics : List PyText
  confidence_score : Option Nat
deriving DecidableEq, Repr

/-- `ProcessingResult` from `pdf_models.py`. -/
structure ProcessingResult where
  extraction : PDFTextExtraction
  analysis : GeminiAnalysis
  processing_time : Nat
  filename : String
  parser_used : ParserType
deriving DecidableEq, Repr

/-- A lone surrogate code point, the only code points a Python `str` can
hold that `str.encode('utf-8')` cannot encode. -/
def isSurrogate (c : Nat) : Bool :=
  decide (0xD800 ≤ c) && decide (c ≤ 0xDFFF)

/-- `s.encode('utf-8', errors='replace').decode('utf-8')`
(`pdf_consumer.py` lines 79–83): encoding replaces each unencodable code
point with `?` (0x3F); decoding the resulting valid UTF-8 is lossless.
Total — it never raises, whatever the input. -/
def cleanText (t : PyText) : PyText :=
  t.map fun c => if isSurrogate c then 0x3F else c

/-- A text round-trips through UTF-8 iff it has no lone surrogates. -/
def Encodable (t : PyText) : Prop :=
  ∀ c ∈ t, isSurrogate c = false

/-- The dict stored under `result:{processing_id}`
(`pdf_consumer.py` lines 86–92). -/
structure StoredResult where
  markdown : PyText
  summary : PyText
  parser_used : ParserType
  filename : String
  processing_time : Nat
deriving DecidableEq, Repr

/-- The `result` dict embedded in the `completed` status update
(`pdf_consumer.py` lines 99–117). -/
structure ResultEmbed where
  text : PyText
  markdown : PyText
  page_count : Nat
  metadata : List (String × String)
  extraction_parser_used : ParserType
  summary : PyText
  key_points : List PyText
  sentiment : Option PyText
  topics : List PyText
  confidence_score : Option Nat
  processing_time : Nat
  filename : String
  parser_used : ParserType
deriving DecidableEq, Repr

/-! ## Worker Loop (`PDFConsumer._process_message`) -/

/-- Externally visible calls the worker makes while handling one entry:
a POST to `/update-status/{pid}` (`_update_status` — it swallows its own
failures, so the call is recorded whether or not it lands), the Processing
Strategy invocation, a successful `SETEX` of the result, and the `XACK`. -/
inductive Action where
  | updateStatus (pid : String) (status : ProcessingStatus) (message : String)
      (parser : Option ParserType) (result : Option ResultEmbed)
  | invoke (content : List Nat) (filename : String) (parser : ParserType)
  | storeResult (key : String) (expire_seconds : Nat) (value : StoredResult)
  | ack (message_id : String)
deriving DecidableEq, Repr

/-- Outcomes of the worker's external collaborators for one entry:
`process_pdf` is the Processing Strategy (which may raise), `store_ok` tells
whether the Redis `SETEX` issued by `store_result` succeeds —
`_store_results_in_redis` catches and logs that failure without re-raising.
A failing status-update call is swallowed inside `_update_status` and
changes nothing in the worker's control flow, so it needs no flag. -/
structure WorkerEnv where
  process_pdf : List Nat → String → ParserType → Except String ProcessingResult
  store_ok : Bool

/-- Abstract text of the exception raised by `json.loads` or by attribute
access on a non-dict payload. -/
def jsonDecodeErrorText : String := "malformed JSON payload"

/-- Abstract text of the `ValueError` raised by `bytes.fromhex`. -/
def fromhexErrorText : String := "non-hexadecimal content"

/-- `ParserType(data.get("parser", "pypdf"))` with the `except ValueError`
fallback to `PYPDF` (`pdf_consumer.py` lines 56–61). -/
def parserOf (d : PayloadDict) : ParserType :=
  (ParserType.ofString (d.parser.getD "pypdf")).getD .pypdf

/-- `PDFConsumer._process_message` (`pdf_consumer.py` lines 42–131) as a
trace of external calls.  Branches mirror the source: falsy
`processing_id`/`data` → bare ack (lines 49–51); `json.loads` failure →
the `except` branch writes a `failed` status, then acks (lines 122–131,
`processing_id` being truthy); falsy `filename`/`content` → bare ack
(lines 63–65); `bytes.fromhex` failure → `failed` then ack; strategy
failure → `failed` then ack; success → sanitize, store (when the `SETEX`
lands), `completed` with the embedded result, ack (lines 78–120). -/
def process_message (env : WorkerEnv) (message_id : String)
    (fields : StreamFields) : List Action :=
  match fields.processing_id, fields.data with
  | some pid, some dataVal =>
    if pid = "" then [.ack message_id]
    else
      match dataVal with
      | .invalid =>
        [.updateStatus pid .failed ("Processing failed: " ++ jsonDecodeErrorText)
           none none,
         .ack message_id]
      | .dict d =>
        let parser := parserOf d
        if !pyTruthy d.filename || !pyTruthy d.content then [.ack message_id]
        else
          let filename := d.filename.getD ""
          let content_hex := d.content.getD ""
          match bytes_fromhex content_hex with
          | none =>
            [.updateStatus pid .failed ("Processing failed: " ++ fromhexErrorText)
               none none,
             .ack message_id]
          | some pdf_content =>
            Action.updateStatus pid .processing "Processing PDF..." none none ::
            Action.invoke pdf_content filename parser ::
            match env.process_pdf pdf_content filename parser with
            | .error e =>
              [.updateStatus pid .failed ("Processing failed: " ++ e) none none,
               .ack message_id]
            | .ok result =>
              let clean_text := cleanText result.extraction.text
              let clean_markdown := cleanText result.extraction.markdown
              let clean_summary := cleanText result.analysis.summary
              let stored : StoredResult :=
                ⟨clean_markdown, clean_summary, result.parser_used,
                 result.filename, result.processing_time⟩
              let embed : ResultEmbed :=
                ⟨clean_text, clean_markdown, result.extraction.page_count,
                 result.extraction.metadata, result.extraction.parser_used,
                 clean_summary, result.analysis.key_points.map cleanText,
                 result.analysis.sentiment, result.analysis.topics.map cleanText,
                 result.analysis.confidence_score, result.processing_time,
                 result.filename, result.parser_used⟩
              (if env.store_ok then
                [Action.storeResult ("result:" ++ pid) 86400 stored]
              else []) ++
              [.updateStatus pid .completed "PDF processing completed successfully"
                 (some result.parser_used) (some embed),
               .ack message_id]
  | _, _ => [.ack message_id]

/-- Is an action an acknowledgment? -/
def Action.isAck : Action → Bool
  | .ack _ => true
  | _ => false

/-- Number of acknowledgments in a trace. -/
def ackCount (tr : List Action) : Nat := tr.countP Action.isAck

/-- The status value of a status-update action, if any. -/
def Action.statusOf : Action → Option ProcessingStatus
  | .updateStatus _ s _ _ _ => some s
  | _ => none

/-- The sequence of status values the worker writes, in order. -/
def statusSeq (tr : List Action) : List ProcessingStatus :=
  tr.filterMap Action.statusOf

/-! ## Durable Stream broker

Modelled from the spec: the broker is the external Redis server, not code of
this repository; the model follows the Durable Stream contract of the spec
(`append`/`read_group`/`ack` with consumer-group semantics): ids are
assigned strictly increasing at append time, a read with the `>` cursor
delivers only entries beyond the group's last-delivered id and moves that
cursor, and acknowledging removes the entry from the pending entries list
permanently.  The repository's `RedisService` issues exactly these calls
(`redis_service.py` lines 56–105), always reading with `>` and `count=1`. -/

/-- Broker state for the one stream and one consumer group the service
uses. -/
structure StreamState where
  nextId : Nat
  entries : List (Nat × StreamFields)
  lastDelivered : Nat
  pel : List Nat
  acked : List Nat
deriving DecidableEq, Repr

/-- `XADD` (`RedisService.add_to_stream` calls this): append with a fresh,
strictly increasing id, returning it. -/
def xadd (s : StreamState) (f : StreamFields) : Nat × StreamState :=
  (s.nextId,
   { s with entries := s.entries ++ [(s.nextId, f)], nextId := s.nextId + 1 })

/-- `XREADGROUP group consumer {stream: >} count=1`
(`RedisService.read_messages`): the first entry past the group's
last-delivered cursor, if any; delivery moves the cursor and puts the id on
the pending entries list. -/
def xreadgroup (s : StreamState) : Option (Nat × StreamFields) × StreamState :=
  match s.entries.find? (fun e => s.lastDelivered < e.1) with
  | some e => (some e, { s with lastDelivered := e.1, pel := e.1 :: s.pel })
  | none => (none, s)

/-- `XACK` (`RedisService.acknowledge_message`): remove the id from the
pending entries list for good; record it acknowledged. -/
def acknowledge_message (s : StreamState) (i : Nat) : StreamState :=
  { s with pel := s.pel.filter (fun j => j ≠ i), acked := i :: s.acked }

/-- Invariant of a reachable broker state: stream ids are strictly
increasing and below `nextId`, and every delivered id — pending or
acknowledged — is at most the group's last-delivered cursor. -/
def StreamWF (s : StreamState) : Prop :=
  s.entries.Pairwise (fun a b => a.1 < b.1) ∧
  (∀ e ∈ s.entries, e.1 < s.nextId) ∧
  (∀ j ∈ s.pel, j ≤ s.lastDelivered) ∧
  (∀ j ∈ s.acked, j ≤ s.lastDelivered)

theorem streamWF_xadd (s : StreamState) (f : StreamFields) (h : StreamWF s) :
    StreamWF (xadd s f).2 := by
  obtain ⟨hsort, hbound, hpel, hacked⟩ := h
  dsimp only [xadd]
  refine ⟨?_, ?_, hpel, hacked⟩
  · rw [List.pairwise_append]
    exact ⟨hsort, List.pairwise_singleton _ _,
      fun a ha b hb => by
        simp only [List.mem_singleton] at hb
        rw [hb]
        exact hbound a ha⟩
  · intro e he
    rcases List.mem_append.1 he with h1 | h1
    · exact Nat.lt_succ_of_lt (hbound e h1)
    · simp only [List.mem_singleton] at h1
      rw [h1]
      exact Nat.lt_succ_self _

theorem streamWF_xreadgroup (s : StreamState) (h : StreamWF s) :
    StreamWF (xreadgroup s).2 := by
  obtain ⟨hsort, hbound, hpel, hacked⟩ := h
  cases hf : s.entries.find? (fun e => s.lastDelivered < e.1) with
  | none =>
    simp only [xreadgroup, hf]
    exact ⟨hsort, hbound, hpel, hacked⟩
  | some a =>
    have ha : s.lastDelivered < a.1 := by
      have := List.find?_some hf
      simpa using this
    simp only [xreadgroup, hf]
    refine ⟨hsort, hbound, ?_, ?_⟩
    · intro j hj
      rcases List.mem_cons.1 hj with h1 | h1
      · show j ≤ a.1
        omega
      · exact le_trans (hpel j h1) (le_of_lt ha)
    · intro j hj
      exact le_trans (hacked j hj) (le_of_lt ha)

theorem streamWF_ack (s : StreamState) (i : Nat) (h : StreamWF s)
    (hi : i ≤ s.lastDelivered) : StreamWF (acknowledge_message s i) := by
  obtain ⟨hsort, hbound, hpel, hacked⟩ := h
  dsimp only [acknowledge_message]
  refine ⟨hsort, hbound, ?_, ?_⟩
  · intro j hj
    exact hpel j (List.mem_of_mem_filter hj)
  · intro j hj
    rcases List.mem_cons.1 hj with h1 | h1
    · show j ≤ s.lastDelivered
      omega
    · exact hacked j h1

/-! ## Status Register and Job Submission Gateway (`main.py`) -/

/-- One value of the in-process `processing_status` dict: the fields the
submission path writes (`main.py` lines 76–81) merged with those the worker
pushes through `/update-status`. -/
structure StatusEntry where
  status : ProcessingStatus
  filename : Option String
  parser : Option ParserType
  message : String
  result : Option ResultEmbed
deriving DecidableEq, Repr

/-- The process-local Status Register, newest binding first; `List.lookup`
takes the first match, so consing is dict overwrite. -/
abbrev StatusRegister := List (String × StatusEntry)

/-- `processing_status[k] = v`. -/
def regSet (reg : StatusRegister) (k : String) (v : StatusEntry) :
    StatusRegister :=
  (k, v) :: reg

/-- `processing_status.get(k)`. -/
def regGet (reg : StatusRegister) (k : String) : Option StatusEntry :=
  reg.lookup k

/-- A FastAPI `HTTPException` (or validation error) surfaced to the client. -/
structure HTTPException where
  status_code : Nat
  detail : String
deriving DecidableEq, Repr

/-- `PDFProcessingResponse` from `pdf_models.py`. -/
structure PDFProcessingResponse where
  processing_id : String
  status : ProcessingStatus
  message : String
  parser : Option ParserType
  result : Option ResultEmbed
deriving DecidableEq, Repr

/-- Framework handling of the `parser` form field declared
`parser: ParserType = Form(ParserType.PYPDF)` (`main.py` line 63): an absent
field takes the default `pypdf`; a present value is validated against the
closed enumeration and an unrecognized value is rejected with a 422
validation error before the handler body runs. -/
def parseParserForm : Option String → Except HTTPException ParserType
  | none => .ok .pypdf
  | some s =>
    match ParserType.ofString s with
    | some p => .ok p
    | none => .error ⟨422, "Input should be pypdf, gemini_flash or mistral"⟩

/-- The message written at submission (`main.py` lines 80 and 94). -/
def submitMessage (p : ParserType) : String :=
  "PDF uploaded and queued for processing with " ++ p.value ++ " parser"

/-- `upload_pdf` (`main.py` lines 59–96) including the framework's form
validation.  `stream_ok` says whether the `XADD` issued by `add_to_stream`
succeeds; on failure `add_to_stream` logs and re-raises
(`redis_service.py` lines 70–72), the endpoint surfaces a 500, and the
`pending` entry written at step 2 stays in the register — there is no
rollback.  `processing_id` stands for the freshly generated `uuid.uuid4()`
string. -/
def upload_pdf (reg : StatusRegister) (stream : StreamState)
    (stream_ok : Bool) (processing_id : String) (filename : String)
    (content : List Nat) (parserForm : Option String) :
    Except HTTPException PDFProcessingResponse × StatusRegister × StreamState :=
  match parseParserForm parserForm with
  | .error e => (.error e, reg, stream)
  | .ok parser =>
    if !(pyEndsWith filename ".pdf") then
      (.error ⟨400, "Only PDF files are allowed"⟩, reg, stream)
    else
      let msg := submitMessage parser
      let reg1 := regSet reg processing_id
        ⟨.pending, some filename, some parser, msg, none⟩
      if stream_ok then
        let fields : StreamFields :=
          ⟨some processing_id,
           some (.dict ⟨some filename, some (bytesHex content),
             some processing_id, some parser.value⟩)⟩
        (.ok ⟨processing_id, .pending, msg, some parser, none⟩,
         reg1, (xadd stream fields).2)
      else
        (.error ⟨500, "stream append failed"⟩, reg1, stream)

/-! ## Result Store (`redis_service.py` / `main.py` results endpoint) -/

/-- A parsed value `json.loads` can hand back from a result key: the dict
the worker writes (carrying the result fields; the worker always writes all
five keys, so the dicts in scope are non-empty and truthy), or any valid
JSON value that is not a dict — tagged with its Python truthiness (`[1]`,
`42`, `"x"` are truthy; `[]`, `0`, `""`, `null`, `false` are falsy). -/
inductive StoredJson where
  | dict (r : StoredResult)
  | nonDict (truthy : Bool)
deriving DecidableEq, Repr

/-- A raw value under a result key: a string `json.loads` accepts (the
worker itself only ever stores `json.dumps` of a dict,
`redis_service.py` line 114, but corruption can leave anything), or a
string `json.loads` rejects. -/
inductive RawStored where
  | json (v : StoredJson)
  | invalid
deriving DecidableEq, Repr

/-- The Result Store together with broker availability: when `broker_ok` is
false any `GET` raises. -/
structure ResultStoreState where
  store : String → Option RawStored
  broker_ok : Bool

/-- `RedisService.get_result` (`redis_service.py` lines 119–130): the key is
`result:{processing_id}`; any exception raised inside — broker failure or a
stored value `json.loads` rejects — is caught and collapsed to `None`, and a
missing (or expired) key also yields `None`; but a stored value `json.loads`
accepts is returned as parsed, whether or not it is a dict. -/
def get_result (st : ResultStoreState) (processing_id : String) :
    Option StoredJson :=
  if !st.broker_ok then none
  else
    match st.store ("result:" ++ processing_id) with
    | none => none
    | some .invalid => none
    | some (.json v) => some v

/-- The body of a successful `GET /results/{processing_id}` response
(`main.py` lines 133–140). -/
structure ResultsResponse where
  processing_id : String
  markdown : PyText
  summary : PyText
  parser_used : ParserType
  filename : String
  processing_time : Nat
deriving DecidableEq, Repr

/-- Abstract text of the `AttributeError` raised by `results.get` on a
non-dict value. -/
def attributeErrorText : String := "object has no attribute get"

/-- `get_processing_results` (`main.py` lines 123–145): a falsy value from
`get_result` — `None`, and also any falsy parsed JSON value — takes the
`if not results` branch and becomes the 404; on a truthy non-dict value
`results.get("markdown", "")` raises `AttributeError`, which the
`except Exception` at lines 144–145 turns into a 500 — so the 500 branch is
reachable for stored values that are valid JSON but not a dict. -/
def get_processing_results (st : ResultStoreState) (processing_id : String) :
    Except HTTPException ResultsResponse :=
  match get_result st processing_id with
  | none => .error ⟨404, "Results not found or expired"⟩
  | some (.nonDict false) => .error ⟨404, "Results not found or expired"⟩
  | some (.nonDict true) =>
    .error ⟨500, "Failed to retrieve results: " ++ attributeErrorText⟩
  | some (.dict r) =>
    .ok ⟨processing_id, r.markdown, r.summary, r.parser_used, r.filename,
      r.processing_time⟩

/-! ## Concrete instances for witnesses and counterexamples -/

/-- An empty broker state (Redis stream ids start positive). -/
def emptyStream : StreamState := ⟨1, [], 0, [], []⟩

/-- An environment whose Processing Strategy always raises. -/
def envFail : WorkerEnv := ⟨fun _ _ _ => .error "boom", true⟩

/-- A sample successful extraction. -/
def sampleExtraction : PDFTextExtraction := ⟨[72, 105], [35, 32, 72, 105], 1, [], .pypdf⟩

/-- A sample analysis. -/
def sampleAnalysis : GeminiAnalysis := ⟨[79, 107], [[79]], some [110], [[100]], some 1⟩

/-- A sample strategy result. -/
def sampleResult : ProcessingResult := ⟨sampleExtraction, sampleAnalysis, 2, "a.pdf", .pypdf⟩

/-- An environment whose strategy succeeds but whose result `SETEX` fails. -/
def envStoreFail : WorkerEnv := ⟨fun _ _ _ => .ok sampleResult, false⟩

/-- An environment where everything succeeds. -/
def envOk : WorkerEnv := ⟨fun _ _ _ => .ok sampleResult, true⟩

/-- Well-formed stream fields as the gateway produces them. -/
def goodFields : StreamFields :=
  ⟨some "j1", some (.dict ⟨some "a.pdf", some "2550", some "j1", some "pypdf"⟩)⟩

theorem process_message_shapes (env : WorkerEnv) (message_id : String)
    (fields : StreamFields) :
    process_message env message_id fields = [.ack message_id] ∨
    (∃ pid m, process_message env message_id fields =
      [.updateStatus pid .failed m none none, .ack message_id]) ∨
    (∃ pid bs fn p m, process_message env message_id fields =
      [.updateStatus pid .processing "Processing PDF..." none none,
       .invoke bs fn p,
       .updateStatus pid .failed m none none, .ack message_id]) ∨
    (∃ pid bs fn p sr pu emb, process_message env message_id fields =
      [.updateStatus pid .processing "Processing PDF..." none none,
       .invoke bs fn p,
       .storeResult ("result:" ++ pid) 86400 sr,
       .updateStatus pid .completed "PDF processing completed successfully"
         (some pu) (some emb),
       .ack message_id]) ∨
    (∃ pid bs fn p pu emb, process_message env message_id fields =
      [.updateStatus pid .processing "Processing PDF..." none none,
       .invoke bs fn p,
       .updateStatus pid .completed "PDF processing completed successfully"
         (some pu) (some emb),
       .ack message_id]) := by
  rcases fields with ⟨pid?, data?⟩
  cases pid? with
  | none => left; rfl
  | some pid =>
    cases data? with
    | none => left; rfl
    | some dataVal =>
      by_cases hpid : pid = ""
      · left; simp [process_message, hpid]
      · cases dataVal with
        | invalid =>
          right; left
          exact ⟨pid, "Processing failed: " ++ jsonDecodeErrorText,
            by simp [process_message, hpid]⟩
        | dict d =>
          by_cases hfc : (!pyTruthy d.filename || !pyTruthy d.content) = true
          · left; simp [process_message, hpid, hfc]
          · cases hhex : bytes_fromhex (d.content.getD "") with
            | none =>
              right; left
              exact ⟨pid, "Processing failed: " ++ fromhexErrorText,
                by simp [process_message, hpid, hfc, hhex]⟩
            | some bs =>
              cases hres : env.process_pdf bs (d.filename.getD "") (parserOf d) with
              | error e =>
                right; right; left
                exact ⟨pid, bs, d.filename.getD "", parserOf d,
                  "Processing failed: " ++ e,
                  by simp [process_message, hpid, hfc, hhex, hres]⟩
              | ok r =>
                by_cases hso : env.store_ok = true
                · right; right; right; left
                  exact ⟨pid, bs, d.filename.getD "", parserOf d,
                    ⟨cleanText r.extraction.markdown, cleanText r.analysis.summary,
                     r.parser_used, r.filename, r.processing_time⟩,
                    r.parser_used,
                    ⟨cleanText r.extraction.text, cleanText r.extraction.markdown,
                     r.extraction.page_count, r.extraction.metadata,
                     r.extraction.parser_used, cleanText r.analysis.summary,
                     r.analysis.key_points.map cleanText, r.analysis.sentiment,
                     r.analysis.topics.map cleanText, r.analysis.confidence_score,
                     r.processing_time, r.filename, r.parser_used⟩,
                    by simp [process_message, hpid, hfc, hhex, hres, hso]⟩
                · right; right; right; right
                  exact ⟨pid, bs, d.filename.getD "", parserOf d,
                    r.parser_used,
                    ⟨cleanText r.extraction.text, cleanText r.extraction.markdown,
                     r.extraction.page_count, r.extraction.metadata,
                     r.extraction.parser_used, cleanText r.analysis.summary,
                     r.analysis.key_points.map cleanText, r.analysis.sentiment,
                     r.analysis.topics.map cleanText, r.analysis.confidence_score,
                     r.processing_time, r.filename, r.parser_used⟩,
                    by simp [process_message, hpid, hfc, hhex, hres, hso]⟩

/-! ## Shared helper lemmas -/

theorem encodable_cleanText (t : PyText) : Encodable (cleanText t) := by
  intro c hc
  rcases List.mem_map.1 hc with ⟨a, _, ha⟩
  rw [← ha]
  cases hs : isSurrogate a with
  | true =>
    show isSurrogate 63 = false
    decide
  | false =>
    show isSurrogate a = false
    exact hs

/-! ## Claims -/

/-- C4: for every byte sequence (empty, nulls and non-UTF8 bytes included),
hex-encoding at the gateway (`content.hex()`) and decoding at the worker
(`bytes.fromhex`) reproduces the bytes exactly, and the encoded form uses
only lowercase hex digits. -/
theorem hex_round_trip (bs : List Nat) (h : ∀ b ∈ bs, b < 256) :
    bytes_fromhex (bytesHex bs) = some bs ∧
    ∀ c ∈ (bytesHex bs).data, c ∈ lowercaseHexChars := by
  constructor
  · exact bytesFromHexChars_flatMap bs h
  · intro c hc
    have hc2 : c ∈ bs.flatMap byteToHex := hc
    rcases List.mem_flatMap.1 hc2 with ⟨b, hb, hcb⟩
    have hb256 : b < 256 := h b hb
    have hdiv : b / 16 < 16 := Nat.div_lt_of_lt_mul (by omega)
    have hmod : b % 16 < 16 := Nat.mod_lt _ (by omega)
    simp only [byteToHex, List.mem_cons, List.not_mem_nil, or_false] at hcb
    rcases hcb with h1 | h1 <;> rw [h1]
    · exact hexDigit_mem_lowercase _ hdiv
    · exact hexDigit_mem_lowercase _ hmod

/-- Witness for C4 on the bytes 0x25 0x00 0xff. -/
theorem hex_round_trip_witness :
    bytes_fromhex (bytesHex [37, 0, 255]) = some [37, 0, 255] :=
  (hex_round_trip [37, 0, 255] (by decide)).1

/-- C1: whatever the collaborator outcomes, the worker's handling of a
delivered entry acknowledges it exactly once — on the success, failure and
malformed paths alike — and an id recorded acknowledged in a well-formed
broker state is never delivered again by a `>` group read. -/
theorem ack_exactly_once_and_no_redelivery
    (env : WorkerEnv) (message_id : String) (fields : StreamFields)
    (s : StreamState) (j : Nat) (hwf : StreamWF s) (hj : j ∈ s.acked) :
    ackCount (process_message env message_id fields) = 1 ∧
    ∀ e s2, xreadgroup s = (some e, s2) → e.1 ≠ j := by
  constructor
  · rcases process_message_shapes env message_id fields with
      h | ⟨p, m, h⟩ | ⟨p, bs, fn, pa, m, h⟩ | ⟨p, bs, fn, pa, sr, pu, emb, h⟩ |
      ⟨p, bs, fn, pa, pu, emb, h⟩ <;>
      simp [h, ackCount, List.countP_cons, List.countP_nil, Action.isAck]
  · intro e s2 hread
    obtain ⟨hsort, hbound, hpel, hacked⟩ := hwf
    have hj2 : j ≤ s.lastDelivered := hacked j hj
    cases hf : s.entries.find? (fun x => s.lastDelivered < x.1) with
    | none =>
      have hnone : (xreadgroup s).1 = none := by simp [xreadgroup, hf]
      rw [hread] at hnone
      simp at hnone
    | some a =>
      have ha : s.lastDelivered < a.1 := by
        simpa using List.find?_some hf
      have hfst : (xreadgroup s).1 = some a := by simp [xreadgroup, hf]
      rw [hread] at hfst
      have he : e = a := Option.some.inj (by simpa using hfst)
      subst he
      omega

/-- A broker state in which entry 1 has been delivered and acknowledged. -/
def ackedStream : StreamState := ⟨2, [(1, goodFields)], 1, [], [1]⟩

/-- Witness for C1: the strategy-failure environment on well-formed fields,
and the concrete acknowledged entry 1. -/
theorem ack_exactly_once_and_no_redelivery_witness :
    ackCount (process_message envFail "m1" goodFields) = 1 :=
  (ack_exactly_once_and_no_redelivery envFail "m1" goodFields ackedStream 1
    ⟨by decide, by decide, by decide, by decide⟩ (by decide)).1

/-- C8 counterexample: a delivered entry with a truthy job id and an
unparseable payload moves the job straight from `pending` to `failed` — the
worker writes `failed` without ever writing `processing`, so
`pending → processing → terminal` is not the only reachable sequence. -/
theorem pending_to_failed_direct :
    statusSeq (process_message envFail "m1" ⟨some "j1", some .invalid⟩) =
      [.failed] ∧
    (statusSeq (process_message envFail "m1"
      ⟨some "j1", some .invalid⟩)).count ProcessingStatus.processing = 0 := by
  constructor
  · rfl
  · rfl

/-- C8 (amended): the per-entry sequences of status values the worker can
write are exactly `[]`, `[failed]`, `[processing, completed]` and
`[processing, failed]`; in particular a terminal write is always the last
write for the entry, so no worker operation moves a job out of a terminal
status — but `pending → failed` without `processing` is also reachable. -/
theorem status_write_sequences (env : WorkerEnv) (mid : String)
    (fields : StreamFields) :
    statusSeq (process_message env mid fields) = [] ∨
    statusSeq (process_message env mid fields) = [.failed] ∨
    statusSeq (process_message env mid fields) = [.processing, .completed] ∨
    statusSeq (process_message env mid fields) = [.processing, .failed] := by
  rcases process_message_shapes env mid fields with
      h | ⟨p, m, h⟩ | ⟨p, bs, fn, pa, m, h⟩ | ⟨p, bs, fn, pa, sr, pu, emb, h⟩ |
      ⟨p, bs, fn, pa, pu, emb, h⟩ <;>
    simp [h, statusSeq, Action.statusOf, List.filterMap_cons, List.filterMap_nil]

/-- C5 counterexample: the worker does not drop an unparseable payload
silently — with a truthy job id it writes a `failed` status for the job
before acknowledging, surfacing the malformed entry in the Status
Register. -/
theorem invalid_json_writes_failed_status :
    process_message envFail "m1" ⟨some "j1", some .invalid⟩ =
      [.updateStatus "j1" .failed
         ("Processing failed: " ++ jsonDecodeErrorText) none none,
       .ack "m1"] ∧
    statusSeq (process_message envFail "m1" ⟨some "j1", some .invalid⟩) =
      [ProcessingStatus.failed] := by
  constructor
  · rfl
  · rfl

/-- C5 (amended): an entry with a falsy job id or data field, or whose
decoded dict lacks a truthy filename or content, is acknowledged and dropped
with no status write; an entry with a truthy job id whose payload fails JSON
decoding is also acknowledged immediately, but gets a `failed` status
written for its job first. -/
theorem malformed_entries_amended (env : WorkerEnv) (mid : String) :
    (∀ fields : StreamFields,
       pyTruthy fields.processing_id = false ∨ fields.data = none →
       process_message env mid fields = [.ack mid]) ∧
    (∀ (pid : String) (d : PayloadDict),
       pyTruthy d.filename = false ∨ pyTruthy d.content = false →
       process_message env mid ⟨some pid, some (.dict d)⟩ = [.ack mid]) ∧
    (∀ pid : String, pid ≠ "" →
       process_message env mid ⟨some pid, some .invalid⟩ =
         [.updateStatus pid .failed
            ("Processing failed: " ++ jsonDecodeErrorText) none none,
          .ack mid]) := by
  refine ⟨?_, ?_, ?_⟩
  · rintro ⟨pid?, data?⟩ h
    rcases h with h | h
    · cases pid? with
      | none => cases data? <;> rfl
      | some p =>
        have hp : p = "" := by simpa [pyTruthy] using h
        cases data? with
        | none => rfl
        | some dv => simp [process_message, hp]
    · simp only at h
      subst h
      cases pid? <;> rfl
  · intro pid d hfc
    by_cases hpid : pid = ""
    · simp [process_message, hpid]
    · have hb : (!pyTruthy d.filename || !pyTruthy d.content) = true := by
        rcases hfc with h | h <;> simp [h]
      simp [process_message, hpid, hb]
  · intro pid hpid
    simp [process_message, hpid]

/-- Witness for C5 (amended) at a concrete malformed entry. -/
theorem malformed_entries_amended_witness :
    process_message envOk "m2" ⟨some "j2", some .invalid⟩ =
      [.updateStatus "j2" .failed
         ("Processing failed: " ++ jsonDecodeErrorText) none none,
       .ack "m2"] :=
  (malformed_entries_amended envOk "m2").2.2 "j2" (by decide)

/-- C2: for a valid submission — filename ending in `.pdf`, parser form
field accepted — the gateway first writes a `pending` entry keyed by the
fresh job id and then appends the stream entry, so the returned id is in the
Status Register as `pending` the moment `submit` returns; and when the
append fails the endpoint errors, the stream is unchanged, but the `pending`
entry still remains — there is no rollback of step 2. -/
theorem submit_pending_before_append
    (reg : StatusRegister) (stream : StreamState) (stream_ok : Bool)
    (pid fn : String) (content : List Nat) (pf : Option String)
    (p : ParserType)
    (hfn : pyEndsWith fn ".pdf" = true) (hp : parseParserForm pf = .ok p) :
    regGet (upload_pdf reg stream stream_ok pid fn content pf).2.1 pid =
      some ⟨.pending, some fn, some p, submitMessage p, none⟩ ∧
    (stream_ok = true →
      (upload_pdf reg stream stream_ok pid fn content pf).1 =
        .ok ⟨pid, .pending, submitMessage p, some p, none⟩ ∧
      (upload_pdf reg stream stream_ok pid fn content pf).2.2.entries =
        stream.entries ++
          [(stream.nextId,
            ⟨some pid, some (.dict ⟨some fn, some (bytesHex content),
              some pid, some p.value⟩)⟩)]) ∧
    (stream_ok = false →
      (upload_pdf reg stream stream_ok pid fn content pf).1 =
        .error ⟨500, "stream append failed"⟩ ∧
      (upload_pdf reg stream stream_ok pid fn content pf).2.2 = stream) := by
  cases stream_ok with
  | true =>
    refine ⟨?_, ?_, ?_⟩
    · simp [upload_pdf, hp, hfn, regGet, regSet, List.lookup]
    · intro _
      constructor
      · simp [upload_pdf, hp, hfn]
      · simp [upload_pdf, hp, hfn, xadd]
    · intro hc
      exact absurd hc (by simp)
  | false =>
    refine ⟨?_, ?_, ?_⟩
    · simp [upload_pdf, hp, hfn, regGet, regSet, List.lookup]
    · intro hc
      exact absurd hc (by simp)
    · intro _
      constructor
      · simp [upload_pdf, hp, hfn]
      · simp [upload_pdf, hp, hfn]

/-- Witness for C2 on a concrete submission whose stream append fails: the
`pending` entry is in the register although the endpoint errored. -/
theorem submit_pending_before_append_witness :
    regGet (upload_pdf [] emptyStream false "id1" "a.pdf" [37] none).2.1
        "id1" =
      some ⟨.pending, some "a.pdf", some .pypdf, submitMessage .pypdf,
        none⟩ ∧
    (upload_pdf [] emptyStream false "id1" "a.pdf" [37] none).1 =
      .error ⟨500, "stream append failed"⟩ :=
  ⟨(submit_pending_before_append [] emptyStream false "id1" "a.pdf" [37]
      none .pypdf (by decide) rfl).1,
   ((submit_pending_before_append [] emptyStream false "id1" "a.pdf" [37]
      none .pypdf (by decide) rfl).2.2 rfl).1⟩

/-- C3 counterexample: the gateway performs no emptiness check on the
uploaded content — a `.pdf`-named upload whose content is the empty byte
string is accepted and registered `pending`, not rejected with a 400. -/
theorem empty_content_accepted :
    (upload_pdf [] emptyStream true "id1" "a.pdf" [] none).1 =
      .ok ⟨"id1", .pending, submitMessage .pypdf, some .pypdf, none⟩ ∧
    regGet (upload_pdf [] emptyStream true "id1" "a.pdf" [] none).2.1
        "id1" =
      some ⟨.pending, some "a.pdf", some .pypdf, submitMessage .pypdf,
        none⟩ := by
  constructor <;> rfl

/-- C3 (amended): the gateway rejects filenames not ending in `.pdf` with a
400 and restricts the parser to the closed enumeration — rejecting an
unrecognized form value with a 422 before the handler runs, and defaulting
to `pypdf` when the field is absent — but it performs no emptiness check on
the content: a submission passing the other checks is accepted whatever its
content, the empty byte string included. -/
theorem upload_validation_amended
    (reg : StatusRegister) (stream : StreamState) (ok : Bool)
    (pid fn s : String) (content : List Nat) (pf : Option String)
    (p : ParserType) :
    (parseParserForm pf = .ok p → pyEndsWith fn ".pdf" = false →
      (upload_pdf reg stream ok pid fn content pf).1 =
        .error ⟨400, "Only PDF files are allowed"⟩) ∧
    parseParserForm none = .ok .pypdf ∧
    (ParserType.ofString s = none →
      (upload_pdf reg stream ok pid fn content (some s)).1 =
        .error ⟨422, "Input should be pypdf, gemini_flash or mistral"⟩) ∧
    (parseParserForm pf = .ok p → pyEndsWith fn ".pdf" = true →
      (upload_pdf reg stream true pid fn content pf).1 =
        .ok ⟨pid, .pending, submitMessage p, some p, none⟩) := by
  refine ⟨?_, rfl, ?_, ?_⟩
  · intro hp hfn
    simp [upload_pdf, hp, hfn]
  · intro hs
    simp [upload_pdf, parseParserForm, hs]
  · intro hp hfn
    simp [upload_pdf, hp, hfn]

/-- Witness for C3 (amended): a non-`.pdf` filename gets the 400. -/
theorem upload_validation_amended_witness :
    (upload_pdf [] emptyStream true "id1" "notes.txt" [37] none).1 =
      .error ⟨400, "Only PDF files are allowed"⟩ :=
  (upload_validation_amended [] emptyStream true "id1" "notes.txt" "x" [37]
    none .pypdf).1 rfl (by decide)

/-- C6 counterexample: when the strategy succeeds but persisting the result
fails, `_store_results_in_redis` swallows the error and the worker still
marks the job `completed` — it does not transition it to `failed`, and no
result is stored. -/
theorem store_failure_still_completed :
    statusSeq (process_message envStoreFail "m1" goodFields) =
      [.processing, .completed] ∧
    (statusSeq (process_message envStoreFail "m1" goodFields)).count
      ProcessingStatus.failed = 0 ∧
    (process_message envStoreFail "m1" goodFields).countP
      (fun a => match a with
        | Action.storeResult _ _ _ => true
        | _ => false) = 0 := by
  refine ⟨rfl, rfl, rfl⟩

/-- C6 (amended): for a well-formed entry with a truthy job id, a failure of
the strategy invocation makes the worker write `processing` then `failed`
with the failure reason, and still acknowledge; but a failure of result
persistence is swallowed — the job is then still marked `completed` and
acknowledged.  (Failures of the status-update call itself are likewise
swallowed inside `_update_status` and never reach the worker.) -/
theorem failure_handling_amended
    (env : WorkerEnv) (mid pid fn hexs : String) (d : PayloadDict)
    (bs : List Nat)
    (hpid : pid ≠ "") (hfn : d.filename = some fn) (hfne : fn ≠ "")
    (hct : d.content = some hexs) (hcte : hexs ≠ "")
    (hhex : bytes_fromhex hexs = some bs) :
    (∀ e, env.process_pdf bs fn (parserOf d) = .error e →
      process_message env mid ⟨some pid, some (.dict d)⟩ =
        [.updateStatus pid .processing "Processing PDF..." none none,
         .invoke bs fn (parserOf d),
         .updateStatus pid .failed ("Processing failed: " ++ e) none none,
         .ack mid]) ∧
    (∀ r, env.process_pdf bs fn (parserOf d) = .ok r →
      env.store_ok = false →
      statusSeq (process_message env mid ⟨some pid, some (.dict d)⟩) =
        [.processing, .completed] ∧
      ackCount (process_message env mid ⟨some pid, some (.dict d)⟩) = 1) := by
  have hf1 : pyTruthy d.filename = true := by rw [hfn]; simp [pyTruthy, hfne]
  have hc1 : pyTruthy d.content = true := by rw [hct]; simp [pyTruthy, hcte]
  have hg1 : d.filename.getD "" = fn := by rw [hfn]; rfl
  have hg2 : d.content.getD "" = hexs := by rw [hct]; rfl
  constructor
  · intro e he
    simp [process_message, hpid, hf1, hc1, hg1, hg2, hhex, he]
  · intro r hr hso
    constructor
    · simp [process_message, statusSeq, Action.statusOf, hpid, hf1, hc1,
        hg1, hg2, hhex, hr, hso]
    · simp [process_message, ackCount, Action.isAck, List.countP_cons,
        List.countP_nil, hpid, hf1, hc1, hg1, hg2, hhex, hr, hso]

/-- Witness for C6 (amended): a concrete strategy failure ends in `failed`
plus acknowledgment. -/
theorem failure_handling_amended_witness :
    process_message envFail "m1"
        ⟨some "j1",
         some (.dict ⟨some "a.pdf", some "2550", some "j1", some "pypdf"⟩)⟩ =
      [.updateStatus "j1" .processing "Processing PDF..." none none,
       .invoke [37, 80] "a.pdf" .pypdf,
       .updateStatus "j1" .failed ("Processing failed: " ++ "boom")
         none none,
       .ack "m1"] :=
  (failure_handling_amended envFail "m1" "j1" "a.pdf" "2550"
    ⟨some "a.pdf", some "2550", some "j1", some "pypdf"⟩ [37, 80]
    (by decide) rfl (by decide) rfl (by decide) rfl).1 "boom" rfl

/-- The strategy invocation is reached — with the resolved parser — for
every well-formed entry, whatever the strategy outcome. -/
theorem invoke_mem_process_message
    (env : WorkerEnv) (mid pid : String) (d : PayloadDict) (bs : List Nat)
    (hpid : pid ≠ "")
    (hf1 : pyTruthy d.filename = true) (hc1 : pyTruthy d.content = true)
    (hhex : bytes_fromhex (d.content.getD "") = some bs) :
    Action.invoke bs (d.filename.getD "") (parserOf d) ∈
      process_message env mid ⟨some pid, some (.dict d)⟩ := by
  cases hres : env.process_pdf bs (d.filename.getD "") (parserOf d) with
  | error e => simp [process_message, hpid, hf1, hc1, hhex, hres]
  | ok r =>
    by_cases hso : env.store_ok = true <;>
      simp [process_message, hpid, hf1, hc1, hhex, hres, hso]

/-- C7 counterexample: at the gateway, a submission carrying an unrecognized
parser string is rejected by the typed form field with a 422 validation
error — no job is created and nothing is processed with the baseline
parser. -/
theorem gateway_rejects_unknown_parser_string :
    (upload_pdf [] emptyStream true "id1" "a.pdf" [37] (some "magic")).1 =
      .error ⟨422, "Input should be pypdf, gemini_flash or mistral"⟩ ∧
    (upload_pdf [] emptyStream true "id1" "a.pdf" [37]
      (some "magic")).2.1 = [] ∧
    (upload_pdf [] emptyStream true "id1" "a.pdf" [37]
      (some "magic")).2.2 = emptyStream := by
  refine ⟨rfl, rfl, rfl⟩

/-- C7 (amended): the silent fallback to the baseline parser lives in the
worker, not the gateway: a stream entry whose payload carries an
unrecognized parser string resolves to `pypdf` and is processed with that
baseline strategy rather than dropped; the gateway's typed form field
instead rejects such strings with a 422 validation error. -/
theorem worker_parser_fallback
    (env : WorkerEnv) (mid pid fn hexs pstr : String) (bs : List Nat)
    (hpid : pid ≠ "") (hfne : fn ≠ "") (hcte : hexs ≠ "")
    (hhex : bytes_fromhex hexs = some bs)
    (hps : ParserType.ofString pstr = none) :
    parserOf ⟨some fn, some hexs, some pid, some pstr⟩ = .pypdf ∧
    Action.invoke bs fn .pypdf ∈
      process_message env mid
        ⟨some pid,
         some (.dict ⟨some fn, some hexs, some pid, some pstr⟩)⟩ ∧
    parseParserForm (some pstr) =
      .error ⟨422, "Input should be pypdf, gemini_flash or mistral"⟩ := by
  have hpof : parserOf ⟨some fn, some hexs, some pid, some pstr⟩ = .pypdf := by
    simp [parserOf, hps]
  refine ⟨hpof, ?_, by simp [parseParserForm, hps]⟩
  have hmem := invoke_mem_process_message env mid pid
    ⟨some fn, some hexs, some pid, some pstr⟩ bs hpid
    (by simp [pyTruthy, hfne]) (by simp [pyTruthy, hcte])
    (by simpa using hhex)
  simpa [hpof] using hmem

/-- Witness for C7 (amended) at a concrete entry with parser "magic". -/
theorem worker_parser_fallback_witness :
    Action.invoke [37, 80] "a.pdf" .pypdf ∈
      process_message envOk "m1"
        ⟨some "j1",
         some (.dict ⟨some "a.pdf", some "2550", some "j1",
           some "magic"⟩)⟩ :=
  (worker_parser_fallback envOk "m1" "j1" "a.pdf" "2550" "magic" [37, 80]
    (by decide) (by decide) (by decide) rfl rfl).2.1

/-- A strategy result whose `sentiment` carries a lone surrogate (U+D800) —
such a value arises when `summarize_with_gemini` builds `GeminiAnalysis`
from `json.loads` of a reply containing a `\ud800` escape. -/
def surrogateResult : ProcessingResult :=
  ⟨sampleExtraction, ⟨[79, 107], [[79]], some [55296], [[100]], some 1⟩, 2,
   "a.pdf", .pypdf⟩

/-- An environment whose strategy succeeds with the surrogate-bearing
sentiment. -/
def envSurrogate : WorkerEnv := ⟨fun _ _ _ => .ok surrogateResult, true⟩

/-- C9 counterexample: the worker does not sanitize ALL textual outputs —
the `sentiment` field (a textual strategy output) is embedded into the
`completed` status raw: the trace below carries `some [55296]`, a lone
surrogate that cannot round-trip through UTF-8 (`isSurrogate` holds of it)
and that sanitizing would have replaced with the placeholder
(`cleanText [55296] = [63]`). -/
theorem sentiment_not_sanitized :
    process_message envSurrogate "m1" goodFields =
      [.updateStatus "j1" .processing "Processing PDF..." none none,
       .invoke [37, 80] "a.pdf" .pypdf,
       .storeResult "result:j1" 86400
         ⟨[35, 32, 72, 105], [79, 107], .pypdf, "a.pdf", 2⟩,
       .updateStatus "j1" .completed "PDF processing completed successfully"
         (some .pypdf)
         (some ⟨[72, 105], [35, 32, 72, 105], 1, [], .pypdf, [79, 107],
           [[79]], some [55296], [[100]], some 1, 2, "a.pdf", .pypdf⟩),
       .ack "m1"] ∧
    isSurrogate 55296 = true ∧
    cleanText [55296] = [63] := by
  refine ⟨rfl, rfl, rfl⟩

/-- C9 (amended): on the success path the worker, in this order, sanitizes
the five textual outputs text, markdown, summary, key_points and topics
(`cleanText` is total — it never raises — and its output is always
UTF-8-encodable), stores the sanitized result dict under
`result:{processing_id}` with TTL 86400 seconds, transitions the status to
`completed` with the full result embedded — the `sentiment` field and the
metadata values embedded raw, unsanitized — and only then acknowledges. -/
theorem success_path_order
    (env : WorkerEnv) (mid pid fn hexs : String) (d : PayloadDict)
    (bs : List Nat) (r : ProcessingResult)
    (hpid : pid ≠ "") (hfn : d.filename = some fn) (hfne : fn ≠ "")
    (hct : d.content = some hexs) (hcte : hexs ≠ "")
    (hhex : bytes_fromhex hexs = some bs)
    (hr : env.process_pdf bs fn (parserOf d) = .ok r)
    (hso : env.store_ok = true) :
    process_message env mid ⟨some pid, some (.dict d)⟩ =
      [.updateStatus pid .processing "Processing PDF..." none none,
       .invoke bs fn (parserOf d),
       .storeResult ("result:" ++ pid) 86400
         ⟨cleanText r.extraction.markdown, cleanText r.analysis.summary,
          r.parser_used, r.filename, r.processing_time⟩,
       .updateStatus pid .completed "PDF processing completed successfully"
         (some r.parser_used)
         (some ⟨cleanText r.extraction.text, cleanText r.extraction.markdown,
           r.extraction.page_count, r.extraction.metadata,
           r.extraction.parser_used, cleanText r.analysis.summary,
           r.analysis.key_points.map cleanText, r.analysis.sentiment,
           r.analysis.topics.map cleanText, r.analysis.confidence_score,
           r.processing_time, r.filename, r.parser_used⟩),
       .ack mid] ∧
    Encodable (cleanText r.extraction.text) ∧
    Encodable (cleanText r.extraction.markdown) ∧
    Encodable (cleanText r.analysis.summary) := by
  have hf1 : pyTruthy d.filename = true := by rw [hfn]; simp [pyTruthy, hfne]
  have hc1 : pyTruthy d.content = true := by rw [hct]; simp [pyTruthy, hcte]
  have hg1 : d.filename.getD "" = fn := by rw [hfn]; rfl
  have hg2 : d.content.getD "" = hexs := by rw [hct]; rfl
  refine ⟨?_, encodable_cleanText _, encodable_cleanText _,
    encodable_cleanText _⟩
  simp [process_message, hpid, hf1, hc1, hg1, hg2, hhex, hr, hso]

/-- Witness for C9 at a concrete successful entry. -/
theorem success_path_order_witness :
    process_message envOk "m1" goodFields =
      [.updateStatus "j1" .processing "Processing PDF..." none none,
       .invoke [37, 80] "a.pdf" .pypdf,
       .storeResult "result:j1" 86400
         ⟨[35, 32, 72, 105], [79, 107], .pypdf, "a.pdf", 2⟩,
       .updateStatus "j1" .completed "PDF processing completed successfully"
         (some .pypdf)
         (some ⟨[72, 105], [35, 32, 72, 105], 1, [], .pypdf, [79, 107],
           [[79]], some [110], [[100]], some 1, 2, "a.pdf", .pypdf⟩),
       .ack "m1"] :=
  (success_path_order envOk "m1" "j1" "a.pdf" "2550"
    ⟨some "a.pdf", some "2550", some "j1", some "pypdf"⟩ [37, 80]
    sampleResult (by decide) rfl (by decide) rfl (by decide) rfl rfl rfl).1

/-- A store holding valid-but-non-dict JSON under the result key of job
`j1` (as a corrupted `"[1]"` would parse), broker up. -/
def nonDictStore : ResultStoreState :=
  ⟨fun k => if k = "result:j1" then some (.json (.nonDict true)) else none,
   true⟩

/-- C10 counterexample: a stored value that is valid JSON but not a dict
(such as `"[1]"`) is returned by `get_result` — no exception is raised
while reading — and the endpoint then raises `AttributeError` on
`results.get`, surfacing a 500: the corrupted value is not collapsed to the
NotFound outcome and is distinguishable from a never-written key. -/
theorem nondict_result_returns_500 :
    get_result nonDictStore "j1" = some (.nonDict true) ∧
    get_processing_results nonDictStore "j1" =
      .error ⟨500, "Failed to retrieve results: " ++ attributeErrorText⟩ ∧
    get_processing_results ⟨fun _ => none, true⟩ "j1" =
      .error ⟨404, "Results not found or expired"⟩ := by
  refine ⟨rfl, rfl, rfl⟩

/-- C10 (amended): every failure while reading inside `get_result` — broker
failure, missing or expired key, or a stored value JSON decoding rejects —
collapses to `None` and then to the same 404 that a never-written key
produces; a stored falsy parsed value also yields that 404; but a stored
value that is valid JSON yet not a dict and truthy escapes the collapse:
the endpoint's response construction raises and the client sees a 500. -/
theorem results_read_failures_amended
    (st : ResultStoreState) (pid : String) :
    (st.broker_ok = false ∨ st.store ("result:" ++ pid) = none ∨
       st.store ("result:" ++ pid) = some .invalid →
     get_result st pid = none ∧
     get_processing_results st pid =
       .error ⟨404, "Results not found or expired"⟩ ∧
     get_processing_results st pid =
       get_processing_results ⟨fun _ => none, true⟩ pid) ∧
    (st.broker_ok = true →
     st.store ("result:" ++ pid) = some (.json (.nonDict false)) →
     get_processing_results st pid =
       .error ⟨404, "Results not found or expired"⟩) ∧
    (st.broker_ok = true →
     st.store ("result:" ++ pid) = some (.json (.nonDict true)) →
     get_processing_results st pid =
       .error ⟨500, "Failed to retrieve results: " ++ attributeErrorText⟩) := by
  refine ⟨?_, ?_, ?_⟩
  · intro h
    have hnone : get_result st pid = none := by
      rcases h with h | h | h <;> simp [get_result, h]
    have h404 : get_processing_results st pid =
        .error ⟨404, "Results not found or expired"⟩ := by
      unfold get_processing_results
      rw [hnone]
    refine ⟨hnone, h404, ?_⟩
    rw [h404]
    rfl
  · intro hb hs
    have hg : get_result st pid = some (.nonDict false) := by
      simp [get_result, hb, hs]
    unfold get_processing_results
    rw [hg]
  · intro hb hs
    have hg : get_result st pid = some (.nonDict true) := by
      simp [get_result, hb, hs]
    unfold get_processing_results
    rw [hg]

/-- A store whose broker is down. -/
def downStore : ResultStoreState := ⟨fun _ => none, false⟩

/-- Witness for C10 (amended) against the downed store. -/
theorem results_read_failures_amended_witness :
    get_result downStore "j1" = none ∧
    get_processing_results downStore "j1" =
      .error ⟨404, "Results not found or expired"⟩ ∧
    get_processing_results downStore "j1" =
      get_processing_results ⟨fun _ => none, true⟩ "j1" :=
  (results_read_failures_amended downStore "j1").1 (Or.inl rfl)

end DocService
